import Mathlib

/-!
Verification of the ADIv5 debug-transport core and the EFM32 flash driver
(files `src/target/adiv5.c` and `src/target/efm32.c` of the Black Magic
Debug project).

The development is a shallow embedding: each C function relevant to the
properties under study is transcribed as an executable Lean definition.
Machine integers are modelled as `Nat` with explicit `% 2^32` (or `% 2^64`)
wherever C unsigned overflow can occur.  Transport transactions are
recorded as explicit event traces; the value returned by each read
transaction is supplied by an environment (an oracle function), so the
theorems quantify over every possible behaviour of the wire.
-/

/-! ### MEM-AP memory engine (`adiv5_mem_read`, `adiv5_mem_write_sized`)

The transfer-size values come from `enum align` of the ADIv5 header:
`ALIGN_BYTE = 0`, `ALIGN_HALFWORD = 1`, `ALIGN_WORD = 2`; the code relies
on these values in the expressions `len >> align` and `1 << align`.
-/


/-- The `ALIGNOF` macro of adiv5.c: WORD when the low two bits are clear,
else HALFWORD when the low bit is clear, else BYTE. -/
def ALIGNOF (x : Nat) : Nat :=
  if x &&& 3 = 0 then 2 else if x &&& 1 = 0 then 1 else 0

/-- One transport operation issued by the MEM-AP engine.  `csw` records the
CSW programming (carrying the align whose size field is merged into the
stored CSW); `tar` a TAR write; `drwR` a DRW read transaction together with
the current transfer address (ghost), the 32-bit response, and whether the
result is discarded (a pipeline-priming read); `drwW` a DRW data write with
the transfer address (ghost); `rdbuff` the final RDBUFF drain read. -/
inductive MOp where
  | csw (align : Nat)
  | tar (addr : Nat)
  | drwR (addr val : Nat) (discard : Bool)
  | drwW (addr val : Nat)
  | rdbuff (addr val : Nat)
deriving DecidableEq

/-- The `extract` helper of adiv5.c: pull the unit at address `src` out of
the 32-bit data lane `val`. -/
def extract (src val align : Nat) : Nat :=
  if align = 0 then (val >>> ((src &&& 0x3) <<< 3)) &&& 0xFF
  else if align = 1 then (val >>> ((src &&& 0x2) <<< 3)) &&& 0xFFFF
  else val

/-- Body of the transfer loop of `adiv5_mem_read`.  `n` counts the data
transfers still handled by the `while (--len)` loop (so `n = count - 1` at
entry); the final transfer is drained from RDBUFF.  `src` is the current
transfer address, `osrc` the address last written to TAR, and `k` the index
of the next read transaction in the response oracle `drw`. -/
def memReadGo (drw : Nat → Nat) (align : Nat) :
    Nat → Nat → Nat → Nat → List MOp × List Nat
  | 0, src, _, k =>
    ([MOp.rdbuff src (drw k)], [extract src (drw k) align])
  | n + 1, src, osrc, k =>
    let v := drw k
    let out := extract src v align
    let src' := (src + (1 <<< align)) % 2 ^ 32
    if (src' ^^^ osrc) &&& 0xfffffc00 ≠ 0 then
      let r := memReadGo drw align n src' src' (k + 2)
      (MOp.drwR src v false :: MOp.tar src' :: MOp.drwR src' (drw (k + 1)) true :: r.1,
        out :: r.2)
    else
      let r := memReadGo drw align n src' osrc (k + 1)
      (MOp.drwR src v false :: r.1, out :: r.2)

/-- Model of `adiv5_mem_read(ap, dest, src, len)`: returns the trace of transport
operations and the list of units stored to `dest`, given the oracle `drw`
for read responses. -/
def adiv5_mem_read (drw : Nat → Nat) (src len : Nat) : List MOp × List Nat :=
  let align := min (ALIGNOF src) (ALIGNOF len)
  if len = 0 then ([], [])
  else
    let count := len >>> align
    let r := memReadGo drw align (count - 1) src src 1
    (MOp.csw align :: MOp.tar src :: MOp.drwR src (drw 0) true :: r.1, r.2)

/-- Body of the transfer loop of `adiv5_mem_write_sized`.  `srcData k` is
the `k`-th unit read from the source buffer; `dest` the current transfer
address and `odest` the address last written to TAR. -/
def memWriteGo (srcData : Nat → Nat) (align : Nat) :
    Nat → Nat → Nat → Nat → List MOp
  | 0, _, _, _ => []
  | n + 1, dest, odest, k =>
    let unit := srcData k
    let tmp :=
      if align = 0 then (unit &&& 0xFF) <<< ((dest &&& 3) <<< 3)
      else if align = 1 then (unit &&& 0xFFFF) <<< ((dest &&& 2) <<< 3)
      else unit % 2 ^ 32
    let dest' := (dest + (1 <<< align)) % 2 ^ 32
    if (dest' ^^^ odest) &&& 0xfffffc00 ≠ 0 then
      MOp.drwW dest tmp :: MOp.tar dest' :: memWriteGo srcData align n dest' dest' (k + 1)
    else
      MOp.drwW dest tmp :: memWriteGo srcData align n dest' odest (k + 1)

/-- Model of `adiv5_mem_write_sized(ap, dest, src, len, align)`: trace of transport
operations. -/
def adiv5_mem_write_sized (srcData : Nat → Nat) (dest len align : Nat) : List MOp :=
  MOp.csw align :: MOp.tar dest :: memWriteGo srcData align (len >>> align) dest dest 0

/-- Model of `adiv5_mem_write`: computes the alignment and defers to the sized write. -/
def adiv5_mem_write (srcData : Nat → Nat) (dest len : Nat) : List MOp :=
  adiv5_mem_write_sized srcData dest len (min (ALIGNOF dest) (ALIGNOF len))

/-! #### Trace observers for the memory engine -/

/-- Number of non-discarded (data) DRW reads in a trace. -/
def countDataReads (ops : List MOp) : Nat :=
  ops.countP fun op => match op with
    | MOp.drwR _ _ false => true
    | _ => false

/-- Number of RDBUFF reads in a trace. -/
def countRdbuff (ops : List MOp) : Nat :=
  ops.countP fun op => match op with
    | MOp.rdbuff _ _ => true
    | _ => false

/-- The lane extractions performed by a read trace, in order: one for each
data DRW read and one for the RDBUFF drain. -/
def dataExtracts (align : Nat) (ops : List MOp) : List Nat :=
  ops.filterMap fun op => match op with
    | MOp.drwR a v false => some (extract a v align)
    | MOp.rdbuff a v => some (extract a v align)
    | _ => none

/-- Returns `true` when the trace ends with an RDBUFF read. -/
def endsWithRdbuff : List MOp → Bool
  | [] => false
  | [MOp.rdbuff _ _] => true
  | [_] => false
  | _ :: op :: ops => endsWithRdbuff (op :: ops)

/-- Checks that every DRW data transfer in the trace happens at an address
lying in the same 1 KiB block as the value most recently written to TAR
(`t`); a transfer before any TAR write fails the check. -/
def tarConsistent : Option Nat → List MOp → Bool
  | _, [] => true
  | _, MOp.tar a :: ops => tarConsistent (some a) ops
  | none, MOp.drwR _ _ _ :: _ => false
  | none, MOp.drwW _ _ :: _ => false
  | some t, MOp.drwR a _ _ :: ops =>
    ((a ^^^ t) &&& 0xfffffc00 = 0) && tarConsistent (some t) ops
  | some t, MOp.drwW a _ :: ops =>
    ((a ^^^ t) &&& 0xfffffc00 = 0) && tarConsistent (some t) ops
  | t, MOp.csw _ :: ops => tarConsistent t ops
  | t, MOp.rdbuff _ _ :: ops => tarConsistent t ops

/-- Checks that every TAR write in the trace is immediately followed by a
discarded (priming) DRW read. -/
def tarPrimed : List MOp → Bool
  | [] => true
  | [MOp.tar _] => false
  | MOp.tar _ :: MOp.drwR a v true :: ops => tarPrimed (MOp.drwR a v true :: ops)
  | MOp.tar _ :: _ :: _ => false
  | _ :: ops => tarPrimed ops

/-- Checks that every discarded (priming) DRW read is immediately preceded
by a TAR write; `prev` is the operation before the head of the list. -/
def primesAfterTar (prev : MOp) : List MOp → Bool
  | [] => true
  | op :: ops =>
    (match op, prev with
     | MOp.drwR _ _ true, MOp.tar _ => true
     | MOp.drwR _ _ true, _ => false
     | _, _ => true) && primesAfterTar op ops

/-! ### AP enumeration in `adiv5_dp_init`

The per-`apsel` behaviour of the transport is abstracted into an
environment: `present i` tells whether `adiv5_ap_setup(i)` succeeded and
`adiv5_new_ap(dp, i)` returned a non-NULL AP (IDR non-zero, allocation
succeeded); `base i` is that AP's BASE register; `probe i` is the value
`adiv5_component_probe(ap, ap->base, 0, 0)` returns when the loop body
reaches it for apsel `i`.  (`ADIV5_AP_BASE_PRESENT` is bit 0 of BASE per
the ADIv5 header.) -/
structure ApEnv where
  present : Bool
  base : Nat
  probe : Bool
deriving DecidableEq

/-- How the enumeration loop of `adiv5_dp_init` ended: `absent0` is the
`return` on `apsel = 0` being absent, `dupBase i` the `return` on a
duplicate BASE at apsel `i`, `voidLimit i` the loop condition
`void_aps < 8` failing when about to scan apsel `i`, `exhausted` the loop
running through apsel 255. -/
inductive ScanStop where
  | absent0
  | dupBase (i : Nat)
  | voidLimit (i : Nat)
  | exhausted
deriving DecidableEq

/-- Result of the AP enumeration loop: the stop cause, the apsels on which
`cortexm_probe(ap, true)` (the forced probe) was invoked, the apsels on
which `adiv5_component_probe` ran together with its result, and the final
value of the `probed` flag. -/
structure ScanResult where
  stop : ScanStop
  forced : List Nat
  probes : List (Nat × Bool)
  probed : Bool
deriving DecidableEq

/-- The AP enumeration loop of `adiv5_dp_init` (adiv5.c lines 674-725).
`rem` is the remaining number of iterations (256 - i at the start); the
accumulators `forced` and `probes` are kept reversed. -/
def apScanGo (env : Nat → ApEnv) (idcode : Nat) :
    Nat → Nat → Nat → Nat → Bool → List Nat → List (Nat × Bool) → ScanResult
  | 0, _, _, _, probed, forced, probes =>
    ⟨ScanStop.exhausted, forced.reverse, probes.reverse, probed⟩
  | rem + 1, i, lastBase, voidAps, probed, forced, probes =>
    if 8 ≤ voidAps then ⟨ScanStop.voidLimit i, forced.reverse, probes.reverse, probed⟩
    else if (env i).present = false then
      if i = 0 then ⟨ScanStop.absent0, forced.reverse, probes.reverse, probed⟩
      else apScanGo env idcode rem (i + 1) lastBase (voidAps + 1) probed forced probes
    else
      if (env i).base = lastBase then
        ⟨ScanStop.dupBase i, forced.reverse, probes.reverse, probed⟩
      else if (env i).base &&& 1 = 0 ∨ (env i).base = 0xffffffff then
        apScanGo env idcode rem (i + 1) ((env i).base) voidAps probed forced probes
      else if (probed || (env i).probe) = false ∧ idcode &&& 0xfff = 0x477 then
        apScanGo env idcode rem (i + 1) ((env i).base) voidAps true
          (i :: forced) ((i, (env i).probe) :: probes)
      else
        apScanGo env idcode rem (i + 1) ((env i).base) voidAps (probed || (env i).probe)
          forced ((i, (env i).probe) :: probes)

/-- AP enumeration as performed by `adiv5_dp_init`: 256 apsels starting
from 0, with `last_base = 0`, `void_aps = 0` and `probed = false`. -/
def adiv5_dp_init_scan (env : Nat → ApEnv) (idcode : Nat) : ScanResult :=
  apScanGo env idcode 256 0 0 0 false [] []

/-- Number of absent apsels among `0 .. i-1`. -/
def absentCount (env : Nat → ApEnv) (i : Nat) : Nat :=
  (List.range i).countP fun j => (env j).present = false

/-- BASE of the last AP created before apsel `i` (the value of the C
`last_base` variable when the loop reaches apsel `i`); 0 if no AP was
created yet. -/
def lastBaseBefore (env : Nat → ApEnv) : Nat → Nat
  | 0 => 0
  | i + 1 => if (env i).present then (env i).base else lastBaseBefore env i

/-- Environment refuting C5: AP 0 is present and its discovery finds a
component; AP 1 is present, its discovery finds nothing; all later apsels
are absent. -/
def envC5 : Nat → ApEnv := fun i =>
  if i = 0 then ⟨true, 1, true⟩ else if i = 1 then ⟨true, 3, false⟩ else ⟨false, 0, false⟩

/-- Environment for the C5 witness: a single present AP whose discovery
finds nothing. -/
def envC5w : Nat → ApEnv := fun i =>
  if i = 0 then ⟨true, 1, false⟩ else ⟨false, 0, false⟩

/-- Environment refuting C6: even apsels are present with pairwise distinct
BASE values, odd apsels are absent, so no eight *consecutive* absent APs
ever occur. -/
def envC6 : Nat → ApEnv := fun i =>
  if i % 2 = 0 then ⟨true, 2 * i + 1, false⟩ else ⟨false, 0, false⟩

/-! ### CoreSight discovery (`adiv5_component_probe`)

Target memory is modelled as an oracle `mem : Nat → Nat` giving the value
of each 32-bit read issued through the MEM-AP (truncated to 32 bits).  The
model assumes a fault-free transport (`adiv5_dp_error` always clear), and
debug-only reads (the `MEMTYPE` read and the DEVARCH/DEVTYPE reads inside
`adiv5_armv8_probe`) are not recorded in the event list. -/

/-- A 32-bit read of target memory through the MEM-AP. -/
def mem32 (mem : Nat → Nat) (a : Nat) : Nat := mem a % 2 ^ 32

/-- Model of `adiv5_ap_read_id`: assemble a 32-bit ID value from the low bytes of
four consecutive words. -/
def adiv5_ap_read_id (mem : Nat → Nat) (addr : Nat) : Nat :=
  (mem32 mem addr &&& 0xff) |||
  ((mem32 mem ((addr + 4) % 2 ^ 32) &&& 0xff) <<< 8) |||
  ((mem32 mem ((addr + 8) % 2 ^ 32) &&& 0xff) <<< 16) |||
  ((mem32 mem ((addr + 12) % 2 ^ 32) &&& 0xff) <<< 24)

/-- Model of `adiv5_ap_read_pidr`: PIDR4..7 as the high 32 bits, PIDR0..3 low. -/
def adiv5_ap_read_pidr (mem : Nat → Nat) (addr : Nat) : Nat :=
  (adiv5_ap_read_id mem ((addr + 0xFD0) % 2 ^ 32) <<< 32) |||
  adiv5_ap_read_id mem ((addr + 0xFE0) % 2 ^ 32)

/-- The `enum arm_arch` of adiv5.c. -/
inductive ArmArch where
  | aa_nosupport
  | aa_cortexm
  | aa_cortexa
  | aa_v8
  | aa_end
deriving DecidableEq

/-- Component-class values of `enum cid_class` used by the probe. -/
def cidc_romtab : Nat := 0x1

def cidc_dc : Nat := 0x9

def cidc_gipc : Nat := 0xE

def cidc_unknown : Nat := 0x10

/-- One row of the static `pidr_pn_bits` part-number table (the
debug-only strings are compiled out without `PLATFORM_HAS_DEBUG`). -/
structure PidrPnEntry where
  part_number : Nat
  arch : ArmArch
  cidc : Nat
deriving DecidableEq

/-- The `pidr_pn_bits` table, including the `aa_end` sentinel row. -/
def pidr_pn_bits : List PidrPnEntry := [
  ⟨0x000, ArmArch.aa_cortexm, cidc_gipc⟩,
  ⟨0x001, ArmArch.aa_nosupport, cidc_unknown⟩,
  ⟨0x002, ArmArch.aa_nosupport, cidc_unknown⟩,
  ⟨0x003, ArmArch.aa_nosupport, cidc_unknown⟩,
  ⟨0x008, ArmArch.aa_cortexm, cidc_gipc⟩,
  ⟨0x00a, ArmArch.aa_nosupport, cidc_unknown⟩,
  ⟨0x00b, ArmArch.aa_nosupport, cidc_unknown⟩,
  ⟨0x00c, ArmArch.aa_cortexm, cidc_gipc⟩,
  ⟨0x00d, ArmArch.aa_nosupport, cidc_unknown⟩,
  ⟨0x00e, ArmArch.aa_nosupport, cidc_unknown⟩,
  ⟨0x101, ArmArch.aa_nosupport, cidc_unknown⟩,
  ⟨0x490, ArmArch.aa_nosupport, cidc_unknown⟩,
  ⟨0x4c7, ArmArch.aa_nosupport, cidc_unknown⟩,
  ⟨0x906, ArmArch.aa_nosupport, cidc_unknown⟩,
  ⟨0x907, ArmArch.aa_nosupport, cidc_unknown⟩,
  ⟨0x908, ArmArch.aa_nosupport, cidc_unknown⟩,
  ⟨0x910, ArmArch.aa_nosupport, cidc_unknown⟩,
  ⟨0x912, ArmArch.aa_nosupport, cidc_unknown⟩,
  ⟨0x913, ArmArch.aa_nosupport, cidc_unknown⟩,
  ⟨0x914, ArmArch.aa_nosupport, cidc_unknown⟩,
  ⟨0x917, ArmArch.aa_nosupport, cidc_unknown⟩,
  ⟨0x920, ArmArch.aa_nosupport, cidc_unknown⟩,
  ⟨0x921, ArmArch.aa_nosupport, cidc_unknown⟩,
  ⟨0x922, ArmArch.aa_nosupport, cidc_unknown⟩,
  ⟨0x923, ArmArch.aa_nosupport, cidc_unknown⟩,
  ⟨0x924, ArmArch.aa_nosupport, cidc_unknown⟩,
  ⟨0x925, ArmArch.aa_nosupport, cidc_unknown⟩,
  ⟨0x930, ArmArch.aa_nosupport, cidc_unknown⟩,
  ⟨0x932, ArmArch.aa_nosupport, cidc_unknown⟩,
  ⟨0x941, ArmArch.aa_nosupport, cidc_unknown⟩,
  ⟨0x950, ArmArch.aa_nosupport, cidc_unknown⟩,
  ⟨0x955, ArmArch.aa_nosupport, cidc_unknown⟩,
  ⟨0x956, ArmArch.aa_nosupport, cidc_unknown⟩,
  ⟨0x95f, ArmArch.aa_nosupport, cidc_unknown⟩,
  ⟨0x961, ArmArch.aa_nosupport, cidc_unknown⟩,
  ⟨0x962, ArmArch.aa_nosupport, cidc_unknown⟩,
  ⟨0x963, ArmArch.aa_nosupport, cidc_unknown⟩,
  ⟨0x975, ArmArch.aa_nosupport, cidc_unknown⟩,
  ⟨0x9a0, ArmArch.aa_nosupport, cidc_unknown⟩,
  ⟨0x9a1, ArmArch.aa_nosupport, cidc_unknown⟩,
  ⟨0x9a9, ArmArch.aa_nosupport, cidc_unknown⟩,
  ⟨0x9a5, ArmArch.aa_nosupport, cidc_unknown⟩,
  ⟨0x9a7, ArmArch.aa_nosupport, cidc_unknown⟩,
  ⟨0x9af, ArmArch.aa_nosupport, cidc_unknown⟩,
  ⟨0xc05, ArmArch.aa_cortexa, cidc_dc⟩,
  ⟨0xc07, ArmArch.aa_cortexa, cidc_dc⟩,
  ⟨0xc08, ArmArch.aa_cortexa, cidc_dc⟩,
  ⟨0xc09, ArmArch.aa_cortexa, cidc_dc⟩,
  ⟨0xc0f, ArmArch.aa_nosupport, cidc_unknown⟩,
  ⟨0xc14, ArmArch.aa_nosupport, cidc_unknown⟩,
  ⟨0xcd0, ArmArch.aa_nosupport, cidc_unknown⟩,
  ⟨0xd21, ArmArch.aa_v8, cidc_unknown⟩,
  ⟨0xfff, ArmArch.aa_end, cidc_unknown⟩
]

/-- One row of `devarch_archid_bits`. -/
structure DevarchEntry where
  archid : Nat
  arch : ArmArch
deriving DecidableEq

/-- The `devarch_archid_bits` table, including the sentinel. -/
def devarch_archid_bits : List DevarchEntry := [
  ⟨0x0a00, ArmArch.aa_nosupport⟩,
  ⟨0x0a01, ArmArch.aa_nosupport⟩,
  ⟨0x0a02, ArmArch.aa_nosupport⟩,
  ⟨0x0a03, ArmArch.aa_nosupport⟩,
  ⟨0x0a04, ArmArch.aa_cortexm⟩,
  ⟨0x0a10, ArmArch.aa_nosupport⟩,
  ⟨0x0a17, ArmArch.aa_nosupport⟩,
  ⟨0x0a27, ArmArch.aa_nosupport⟩,
  ⟨0x0a31, ArmArch.aa_nosupport⟩,
  ⟨0x0a37, ArmArch.aa_nosupport⟩,
  ⟨0x0a47, ArmArch.aa_nosupport⟩,
  ⟨0x0a50, ArmArch.aa_nosupport⟩,
  ⟨0x0a63, ArmArch.aa_nosupport⟩,
  ⟨0x0a75, ArmArch.aa_nosupport⟩,
  ⟨0x0af7, ArmArch.aa_nosupport⟩,
  ⟨0x1a01, ArmArch.aa_nosupport⟩,
  ⟨0x1a02, ArmArch.aa_nosupport⟩,
  ⟨0x1a03, ArmArch.aa_nosupport⟩,
  ⟨0x1a14, ArmArch.aa_nosupport⟩,
  ⟨0x2a04, ArmArch.aa_cortexm⟩,
  ⟨0x2a16, ArmArch.aa_nosupport⟩,
  ⟨0x4a13, ArmArch.aa_nosupport⟩,
  ⟨0x6a05, ArmArch.aa_nosupport⟩,
  ⟨0x6a15, ArmArch.aa_cortexa⟩,
  ⟨0x7a15, ArmArch.aa_cortexa⟩,
  ⟨0x8a15, ArmArch.aa_cortexa⟩,
  ⟨0xffff, ArmArch.aa_end⟩
]

/-- One row of `devtype_id_bits`. -/
structure DevtypeEntry where
  id : Nat
  arch : ArmArch
deriving DecidableEq

/-- The `devtype_id_bits` table, including the sentinel. -/
def devtype_id_bits : List DevtypeEntry := [
  ⟨0x00, ArmArch.aa_nosupport⟩,
  ⟨0x04, ArmArch.aa_nosupport⟩,
  ⟨0x10, ArmArch.aa_nosupport⟩,
  ⟨0x11, ArmArch.aa_nosupport⟩,
  ⟨0x12, ArmArch.aa_nosupport⟩,
  ⟨0x13, ArmArch.aa_nosupport⟩,
  ⟨0x20, ArmArch.aa_nosupport⟩,
  ⟨0x21, ArmArch.aa_nosupport⟩,
  ⟨0x22, ArmArch.aa_nosupport⟩,
  ⟨0x23, ArmArch.aa_nosupport⟩,
  ⟨0x30, ArmArch.aa_nosupport⟩,
  ⟨0x31, ArmArch.aa_nosupport⟩,
  ⟨0x32, ArmArch.aa_nosupport⟩,
  ⟨0x33, ArmArch.aa_nosupport⟩,
  ⟨0x34, ArmArch.aa_nosupport⟩,
  ⟨0x36, ArmArch.aa_nosupport⟩,
  ⟨0x40, ArmArch.aa_nosupport⟩,
  ⟨0x41, ArmArch.aa_nosupport⟩,
  ⟨0x42, ArmArch.aa_nosupport⟩,
  ⟨0x43, ArmArch.aa_nosupport⟩,
  ⟨0x50, ArmArch.aa_nosupport⟩,
  ⟨0x51, ArmArch.aa_nosupport⟩,
  ⟨0x52, ArmArch.aa_nosupport⟩,
  ⟨0x53, ArmArch.aa_nosupport⟩,
  ⟨0x54, ArmArch.aa_nosupport⟩,
  ⟨0x55, ArmArch.aa_nosupport⟩,
  ⟨0x60, ArmArch.aa_nosupport⟩,
  ⟨0x61, ArmArch.aa_nosupport⟩,
  ⟨0x62, ArmArch.aa_nosupport⟩,
  ⟨0x63, ArmArch.aa_nosupport⟩,
  ⟨0x64, ArmArch.aa_nosupport⟩,
  ⟨0x65, ArmArch.aa_nosupport⟩,
  ⟨0xff, ArmArch.aa_end⟩
]

/-- The linear scan over `pidr_pn_bits`: entries are examined up to the
first `aa_end` sentinel, and the first row whose part number matches is
returned. -/
def pidrLookup (pn : Nat) : Option PidrPnEntry :=
  (pidr_pn_bits.takeWhile fun e => e.arch ≠ ArmArch.aa_end).find?
    fun e => e.part_number = pn

/-- The `devarch_archid_bits` scan of `adiv5_armv8_probe`: the loop only
stops on a matching row whose arch is supported, so the result is the arch
of the first matching supported row, else `aa_nosupport`. -/
def devarchLookup (archid : Nat) : ArmArch :=
  match (devarch_archid_bits.takeWhile fun e => e.arch ≠ ArmArch.aa_end).find?
      (fun e => e.archid = archid ∧ e.arch ≠ ArmArch.aa_nosupport) with
  | some e => e.arch
  | none => ArmArch.aa_nosupport

/-- The `devtype_id_bits` scan of `adiv5_armv8_probe`. -/
def devtypeLookup (id : Nat) : ArmArch :=
  match (devtype_id_bits.takeWhile fun e => e.arch ≠ ArmArch.aa_end).find?
      (fun e => e.id = id ∧ e.arch ≠ ArmArch.aa_nosupport) with
  | some e => e.arch
  | none => ArmArch.aa_nosupport

/-- Model of `adiv5_armv8_probe`: refine an `aa_v8` part via DEVARCH (when its
PRESENT bit 20 is set) or DEVTYPE. -/
def adiv5_armv8_probe (mem : Nat → Nat) (addr : Nat) : ArmArch :=
  let devarch := mem32 mem ((addr + 0xFBC) % 2 ^ 32)
  if devarch &&& 0x00100000 ≠ 0 then
    devarchLookup (devarch &&& 0x0000FFFF)
  else
    let devtype := mem32 mem ((addr + 0xFCC) % 2 ^ 32)
    devtypeLookup (((devtype &&& 0xF0) >>> 4) ||| ((devtype &&& 0x0F) <<< 4))

/-- Observable event of the discovery walk: a ROM-table entry read, or a
dispatch to one of the child core probes. -/
inductive PEvent where
  | entryRead (i entry : Nat)
  | cortexm (forced : Bool)
  | cortexa (base : Nat)
deriving DecidableEq

/-- The probe dispatch performed for a matched part-table row
(the `switch (pidr_pn_bits[i].arch)` of adiv5.c). -/
def probeDispatch (mem : Nat → Nat) (addr : Nat) (e : PidrPnEntry) : List PEvent :=
  match e.arch with
  | ArmArch.aa_cortexm => [PEvent.cortexm false]
  | ArmArch.aa_v8 =>
    match adiv5_armv8_probe mem addr with
    | ArmArch.aa_cortexm => [PEvent.cortexm false]
    | ArmArch.aa_cortexa => [PEvent.cortexa addr]
    | _ => []
  | ArmArch.aa_cortexa => [PEvent.cortexa addr]
  | _ => []

/-- The value `~(PIDR_REV_MASK | PIDR_PN_MASK)` as a 64-bit complement. -/
def pidrDesignerMask : Nat := (2 ^ 64 - 1) ^^^ (0x0FFF00000 ||| 0x000000FFF)

mutual
/-- Model of `adiv5_component_probe(ap, addr, recursion, num_entry)`; the
`recursion`/`num_entry` arguments are debug-only and dropped.  `fuel`
bounds the recursion depth; `none` means the bound was exhausted, so a
result of `some` for some fuel witnesses termination of the C recursion. -/
def adiv5_component_probe (mem : Nat → Nat) : Nat → Nat → Option (Bool × List PEvent)
  | 0, _ => none
  | fuel + 1, addr0 =>
    let addr := addr0 - addr0 % 4
    let pidr := adiv5_ap_read_pidr mem addr
    let cidr := adiv5_ap_read_id mem ((addr + 0xFF0) % 2 ^ 32)
    if cidr &&& 0xFFFF0FFF ≠ 0xB105000D then some (false, [])
    else if (cidr &&& 0x0000F000) >>> 12 = cidc_romtab then
      romScan mem fuel addr 960 0
    else if pidr &&& pidrDesignerMask ≠ 0x4000BB000 then some (false, [])
    else
      match pidrLookup (pidr &&& 0xFFF) with
      | none => some (false, [])
      | some e => some (true, probeDispatch mem addr e)
termination_by fuel a => (fuel, 0)

/-- The `for (i = 0; i < 960; i++)` entry loop of the ROM-table branch:
`rem` counts entries still allowed (960 at entry), `i` the entry index.
A zero entry ends the table; a clear PRESENT bit (bit 0) skips the entry;
otherwise the probe recurses on `addr + (entry & 0xFFFFF000)` and
OR-accumulates the result. -/
def romScan (mem : Nat → Nat) : Nat → Nat → Nat → Nat → Option (Bool × List PEvent)
  | _, _, 0, _ => some (false, [])
  | fuel, addr, rem + 1, i =>
    let entry := mem32 mem ((addr + i * 4) % 2 ^ 32)
    if entry = 0 then some (false, [PEvent.entryRead i 0])
    else if entry &&& 1 = 0 then
      (romScan mem fuel addr rem (i + 1)).map fun r =>
        (r.1, PEvent.entryRead i entry :: r.2)
    else
      match adiv5_component_probe mem fuel ((addr + (entry &&& 0xFFFFF000)) % 2 ^ 32) with
      | none => none
      | some c =>
        (romScan mem fuel addr rem (i + 1)).map fun r =>
          (c.1 || r.1, PEvent.entryRead i entry :: c.2 ++ r.2)
termination_by fuel a rem _ => (fuel, rem + 1)
end

/-- The S1 mock of the spec: a component at `0xE00FF000` whose CIDR bytes
are `0x0D, 0x00, 0x05, 0xA1` (invalid preamble high byte). -/
def memS1 : Nat → Nat := fun a =>
  if a = 0xE00FFFF0 then 0x0D else if a = 0xE00FFFF4 then 0x00
  else if a = 0xE00FFFF8 then 0x05 else if a = 0xE00FFFFC then 0xA1
  else 0

/-- Termination of the discovery walk at `addr`: some recursion-depth
bound suffices. -/
def ProbeTerminates (mem : Nat → Nat) (addr : Nat) : Prop :=
  ∃ fuel, (adiv5_component_probe mem fuel addr).isSome

/-- A memory presenting, at address 0, a ROM table whose entry 0 is `0x1`:
PRESENT bit set, offset 0 — the entry points back at the table itself. -/
def memC4 : Nat → Nat := fun a =>
  if a = 0xFF0 then 0x0D else if a = 0xFF4 then 0x10
  else if a = 0xFF8 then 0x05 else if a = 0xFFC then 0xB1
  else if a = 0 then 1
  else 0

/-- The test deciding whether the component at `addr` enters the ROM-table
branch of `adiv5_component_probe`: preamble valid and class nibble 1. -/
def isRomTable (mem : Nat → Nat) (addr : Nat) : Bool :=
  (adiv5_ap_read_id mem ((addr - addr % 4 + 0xFF0) % 2 ^ 32) &&& 0xFFFF0FFF
    == 0xB105000D) &&
  ((adiv5_ap_read_id mem ((addr - addr % 4 + 0xFF0) % 2 ^ 32) &&& 0x0000F000) >>> 12
    == cidc_romtab)

/-- The child addresses a ROM-table scan starting at entry `i` with `rem`
entries remaining will recurse on (present entries up to the first zero
entry). -/
def romChildrenAux (mem : Nat → Nat) (addr : Nat) : Nat → Nat → List Nat
  | 0, _ => []
  | rem + 1, i =>
    let entry := mem32 mem ((addr + i * 4) % 2 ^ 32)
    if entry = 0 then []
    else if entry &&& 1 = 0 then romChildrenAux mem addr rem (i + 1)
    else ((addr + (entry &&& 0xFFFFF000)) % 2 ^ 32) :: romChildrenAux mem addr rem (i + 1)

/-- The children of the (4-byte aligned) ROM table at `addr`. -/
def romChildren (mem : Nat → Nat) (addr : Nat) : List Nat :=
  romChildrenAux mem (addr - addr % 4) 960 0

/-- Well-founded discovery structure: every chain of present ROM-table
entries reaches a non-ROM-table component after finitely many steps. -/
inductive ComponentWf (mem : Nat → Nat) : Nat → Prop where
  | leaf (addr : Nat) : isRomTable mem addr = false → ComponentWf mem addr
  | table (addr : Nat) : isRomTable mem addr = true →
      (∀ a ∈ romChildren mem addr, ComponentWf mem a) → ComponentWf mem addr

/-- All-zero memory: every component read yields 0. -/
def memLeaf : Nat → Nat := fun _ => 0

/-! ### EFM32 flash driver (efm32.c)

Target memory-mapped accesses (`target_mem_write32`, `target_mem_read32`)
are recorded as events; the values returned by reads and by
`target_check_error` come from an environment oracle. -/

/-- One target access of the flash driver: a 32-bit register write or a
32-bit register read with the value the target returned. -/
inductive TEv where
  | w32 (addr val : Nat)
  | r32 (addr val : Nat)
deriving DecidableEq

/-- One row of the static `efm32_devices` table (the `name` and
`description` strings are display-only and omitted). -/
structure Efm32Device where
  family_id : Nat
  di_version : Nat
  flash_page_size : Nat
  msc_addr : Nat
  has_radio : Bool
  user_data_size : Nat
  bootloader_size : Nat
deriving DecidableEq

/-- The `efm32_devices` table (61 rows). -/
def efm32_devices : List Efm32Device := [
  ⟨71, 1, 512, 0x400c0000, false, 512, 0⟩,
  ⟨72, 1, 2048, 0x400c0000, false, 4096, 0⟩,
  ⟨73, 1, 512, 0x400c0000, false, 512, 0⟩,
  ⟨74, 1, 2048, 0x400c0000, false, 2048, 0⟩,
  ⟨75, 1, 2048, 0x400c0000, false, 2048, 0⟩,
  ⟨76, 1, 1024, 0x400c0000, false, 1024, 0⟩,
  ⟨77, 1, 1024, 0x400c0000, false, 1024, 0⟩,
  ⟨120, 2, 2048, 0x400c0000, true, 2048, 0⟩,
  ⟨121, 2, 2048, 0x400c0000, true, 2048, 0⟩,
  ⟨122, 2, 1024, 0x400c0000, true, 1024, 0⟩,
  ⟨81, 3, 2048, 0x400e0000, false, 2048, 10240⟩,
  ⟨83, 3, 2048, 0x400e0000, false, 2048, 10240⟩,
  ⟨85, 3, 2048, 0x400e0000, false, 2048, 32768⟩,
  ⟨87, 3, 2048, 0x400e0000, false, 2048, 32768⟩,
  ⟨100, 3, 4096, 0x40000000, false, 4096, 32768⟩,
  ⟨103, 3, 2048, 0x40000000, false, 2048, 18432⟩,
  ⟨106, 3, 2048, 0x40000000, false, 2048, 32768⟩,
  ⟨16, 3, 2048, 0x400e0000, true, 2048, 10240⟩,
  ⟨17, 3, 2048, 0x400e0000, true, 2048, 10240⟩,
  ⟨18, 3, 2048, 0x400e0000, true, 2048, 10240⟩,
  ⟨19, 3, 2048, 0x400e0000, true, 2048, 10240⟩,
  ⟨20, 3, 2048, 0x400e0000, true, 2048, 10240⟩,
  ⟨21, 3, 2048, 0x400e0000, true, 2048, 10240⟩,
  ⟨25, 3, 2048, 0x400e0000, true, 2048, 10240⟩,
  ⟨26, 3, 2048, 0x400e0000, true, 2048, 10240⟩,
  ⟨27, 3, 2048, 0x400e0000, true, 2048, 10240⟩,
  ⟨28, 3, 2048, 0x400e0000, true, 2048, 32768⟩,
  ⟨29, 3, 2048, 0x400e0000, true, 2048, 32768⟩,
  ⟨30, 3, 2048, 0x400e0000, true, 2048, 32768⟩,
  ⟨31, 3, 2048, 0x400e0000, true, 2048, 32768⟩,
  ⟨32, 3, 2048, 0x400e0000, true, 2048, 32768⟩,
  ⟨33, 3, 2048, 0x400e0000, true, 2048, 32768⟩,
  ⟨37, 3, 2048, 0x400e0000, true, 2048, 32768⟩,
  ⟨38, 3, 2048, 0x400e0000, true, 2048, 32768⟩,
  ⟨39, 3, 2048, 0x400e0000, true, 2048, 32768⟩,
  ⟨40, 3, 2048, 0x400e0000, true, 2048, 16384⟩,
  ⟨41, 3, 2048, 0x400e0000, true, 2048, 16384⟩,
  ⟨42, 3, 2048, 0x400e0000, true, 2048, 16384⟩,
  ⟨43, 3, 2048, 0x400e0000, true, 2048, 16384⟩,
  ⟨44, 3, 2048, 0x400e0000, true, 2048, 16384⟩,
  ⟨45, 3, 2048, 0x400e0000, true, 2048, 16384⟩,
  ⟨45, 3, 2048, 0x400e0000, true, 2048, 16384⟩,
  ⟨49, 3, 2048, 0x400e0000, true, 2048, 16384⟩,
  ⟨50, 3, 2048, 0x400e0000, true, 2048, 16384⟩,
  ⟨51, 3, 2048, 0x400e0000, true, 2048, 16384⟩,
  ⟨52, 3, 2048, 0x400e0000, true, 2048, 16384⟩,
  ⟨53, 3, 2048, 0x400e0000, true, 2048, 16384⟩,
  ⟨54, 3, 2048, 0x400e0000, true, 2048, 16384⟩,
  ⟨55, 3, 2048, 0x400e0000, true, 2048, 16384⟩,
  ⟨56, 3, 2048, 0x400e0000, true, 2048, 16384⟩,
  ⟨57, 3, 2048, 0x400e0000, true, 2048, 16384⟩,
  ⟨58, 3, 2048, 0x400e0000, true, 2048, 16384⟩,
  ⟨61, 3, 2048, 0x400e0000, true, 2048, 16384⟩,
  ⟨62, 3, 2048, 0x400e0000, true, 2048, 16384⟩,
  ⟨63, 3, 2048, 0x400e0000, true, 2048, 16384⟩,
  ⟨128, 4, 8192, 0x40030000, true, 1024, 0⟩,
  ⟨129, 4, 8192, 0x40030000, true, 1024, 0⟩,
  ⟨130, 4, 8192, 0x40030000, true, 1024, 0⟩,
  ⟨221, 4, 8192, 0x40030000, true, 1024, 0⟩,
  ⟨222, 4, 8192, 0x40030000, true, 1024, 0⟩,
  ⟨223, 4, 8192, 0x40030000, true, 1024, 0⟩
]

/-- Model of `efm32_get_device`: NULL when the index is out of range. -/
def efm32_get_device (index : Nat) : Option Efm32Device :=
  efm32_devices[index]?

/-- The macro `EFM32_MSC_WRITECTRL(msc)`. -/
def EFM32_MSC_WRITECTRL (msc : Nat) : Nat :=
  msc + (if msc = 0x40030000 then 0x0c else 0x08)

/-- The macro `EFM32_MSC_WRITECMD(msc)`. -/
def EFM32_MSC_WRITECMD (msc : Nat) : Nat :=
  msc + (if msc = 0x40030000 then 0x10 else 0x0c)

/-- The macro `EFM32_MSC_ADDRB(msc)`. -/
def EFM32_MSC_ADDRB (msc : Nat) : Nat :=
  msc + (if msc = 0x40030000 then 0x14 else 0x10)

/-- The macro `EFM32_MSC_STATUS(msc)`. -/
def EFM32_MSC_STATUS (msc : Nat) : Nat := msc + 0x01c

/-- The macro `EFM32_MSC_LOCK(msc)`. -/
def EFM32_MSC_LOCK (msc : Nat) : Nat :=
  msc + (if msc = 0x40030000 ∨ msc = 0x400c0000 then 0x3c else 0x40)

/-- The macro `EFM32_MSC_MASSLOCK(msc)`. -/
def EFM32_MSC_MASSLOCK (msc : Nat) : Nat :=
  msc + (if msc = 0x40030000 then 0x40 else 0x54)

/-- Oracle for the erase state machine: `status p j` is the value of the
`j`-th MSC STATUS read while erasing page `p`, and `chkerr p j` the
result of the `target_check_error` call made after that read when it
showed BUSY. -/
structure MscEnv where
  status : Nat → Nat → Nat
  chkerr : Nat → Nat → Bool

/-- The `STATUS.BUSY` poll loop of `efm32_flash_erase` for page `page`,
starting at poll index `j`: reads STATUS until bit 0 is clear, calling
`target_check_error` after each busy read and aborting (`true`) when it
reports an error.  `none` when `fuel` polls did not finish. -/
def mscPollBusy (env : MscEnv) (msc page : Nat) : Nat → Nat → Option (List TEv × Bool)
  | 0, _ => none
  | fuel + 1, j =>
    let st := env.status page j % 2 ^ 32
    if st &&& 1 = 0 then some ([TEv.r32 (EFM32_MSC_STATUS msc) st], false)
    else if env.chkerr page j then some ([TEv.r32 (EFM32_MSC_STATUS msc) st], true)
    else
      (mscPollBusy env msc page fuel (j + 1)).map fun r =>
        (TEv.r32 (EFM32_MSC_STATUS msc) st :: r.1, r.2)

/-- The `while (len)` page loop of `efm32_flash_erase`: one
`ADDRB`/`LADDRIM`/`ERASEPAGE` burst and a BUSY poll per page, the
address advancing by `blocksize` and `len` saturating to 0.  Returns the
events together with the C return value (0 success, -1 abort);
`pageFuel`/`pollFuel` bound the loops, `none` meaning non-termination
within the bound. -/
def efm32ErasePages (env : MscEnv) (msc blocksize pollFuel : Nat) :
    Nat → Nat → Nat → Nat → Option (List TEv × Int)
  | 0, _, _, _ => none
  | pageFuel + 1, page, addr, len =>
    if len = 0 then some ([], 0)
    else
      match mscPollBusy env msc page pollFuel 0 with
      | none => none
      | some (pevs, aborted) =>
        let evs0 := TEv.w32 (EFM32_MSC_ADDRB msc) (addr % 2 ^ 32) ::
          TEv.w32 (EFM32_MSC_WRITECMD msc) 1 ::
          TEv.w32 (EFM32_MSC_WRITECMD msc) 2 :: pevs
        if aborted then some (evs0, -1)
        else
          (efm32ErasePages env msc blocksize pollFuel pageFuel (page + 1)
              ((addr + blocksize) % 2 ^ 32) (len - blocksize)).map
            fun r => (evs0 ++ r.1, r.2)

/-- Model of `efm32_flash_erase(f, addr, len)`: the device descriptor is recovered
from the driver-string index (`t->driver[2] - 32`), MSC is unlocked with
the LOCK key, WREN is set, then pages are erased.  When the device lookup
fails the C returns `true` (the int value 1) without touching the MSC. -/
def efm32_flash_erase (env : MscEnv) (deviceIndex pollFuel pageFuel blocksize addr len : Nat) :
    Option (List TEv × Int) :=
  match efm32_get_device deviceIndex with
  | none => some ([], 1)
  | some dev =>
    (efm32ErasePages env dev.msc_addr blocksize pollFuel pageFuel 0 addr len).map
      fun r =>
        (TEv.w32 (EFM32_MSC_LOCK dev.msc_addr) 0x1b71 ::
          TEv.w32 (EFM32_MSC_WRITECTRL dev.msc_addr) 1 :: r.1, r.2)

/-- Transcription of C7's claimed per-page poll: read STATUS until BUSY
(bit 0) is clear, with a `check_error` abort path. -/
def c7SpecPoll (env : MscEnv) (msc page : Nat) : Nat → Nat → Option (List TEv × Bool)
  | 0, _ => none
  | fuel + 1, j =>
    let st := env.status page j % 2 ^ 32
    if st &&& 1 = 0 then some ([TEv.r32 (EFM32_MSC_STATUS msc) st], false)
    else if env.chkerr page j then some ([TEv.r32 (EFM32_MSC_STATUS msc) st], true)
    else
      (c7SpecPoll env msc page fuel (j + 1)).map fun r =>
        (TEv.r32 (EFM32_MSC_STATUS msc) st :: r.1, r.2)

/-- Transcription of C7's claimed page loop: for each page `ADDRB <- addr`,
`WRITECMD <- LADDRIM (1)`, `WRITECMD <- ERASEPAGE (2)`, the BUSY poll,
advancing `addr` by `blocksize` until `len` is exhausted; 0 on success,
-1 when the error check aborts the poll. -/
def c7SpecPages (env : MscEnv) (msc blocksize pollFuel : Nat) :
    Nat → Nat → Nat → Nat → Option (List TEv × Int)
  | 0, _, _, _ => none
  | pageFuel + 1, page, addr, len =>
    if len = 0 then some ([], 0)
    else
      match c7SpecPoll env msc page pollFuel 0 with
      | none => none
      | some (pevs, aborted) =>
        if aborted then
          some (TEv.w32 (EFM32_MSC_ADDRB msc) (addr % 2 ^ 32) ::
            TEv.w32 (EFM32_MSC_WRITECMD msc) 1 ::
            TEv.w32 (EFM32_MSC_WRITECMD msc) 2 :: pevs, -1)
        else
          (c7SpecPages env msc blocksize pollFuel pageFuel (page + 1)
              ((addr + blocksize) % 2 ^ 32) (len - blocksize)).map
            fun r =>
              (TEv.w32 (EFM32_MSC_ADDRB msc) (addr % 2 ^ 32) ::
                TEv.w32 (EFM32_MSC_WRITECMD msc) 1 ::
                TEv.w32 (EFM32_MSC_WRITECMD msc) 2 :: pevs ++ r.1, r.2)

/-- Transcription of C7's claimed whole sequence: one write
`LOCK <- 0x1B71`, one write `WRITECTRL <- 1` (WREN), then the page loop. -/
def c7SpecErase (env : MscEnv) (msc pollFuel pageFuel blocksize addr len : Nat) :
    Option (List TEv × Int) :=
  (c7SpecPages env msc blocksize pollFuel pageFuel 0 addr len).map fun r =>
    (TEv.w32 (EFM32_MSC_LOCK msc) 0x1b71 :: TEv.w32 (EFM32_MSC_WRITECTRL msc) 1 :: r.1,
      r.2)

/-! ### EFM32 probe schema selection (C8)

The Device-Information page base addresses and the byte offsets of the
`PART` and `MSIZE` fields follow the `di_v1_t` .. `di_v4_t` struct layouts
of efm32.c.  The DI hex-dump loop of `efm32_probe` only reads memory
inside the `DEBUG` macro, which compiles to nothing without
`ENABLE_DEBUG`, so it contributes no reads here. -/

/-- The constant `EFM32_DI_V1` (EFM32xG). -/
def EFM32_DI_V1 : Nat := 0x0FE081B0

/-- The constant `EFM32_DI_V2` (EZR32xG). -/
def EFM32_DI_V2 : Nat := 0x0FE081A8

/-- The constant `EFM32_DI_V3` (EFR32xG1x). -/
def EFM32_DI_V3 : Nat := 0x0FE081B0

/-- The constant `EFM32_DI_V4` (EFR32xG2x). -/
def EFM32_DI_V4 : Nat := 0x0FE08000

/-- Address of the `PART` word for each DI schema: field 19 of `di_v1_t`,
field 21 of `di_v2_t`, field 19 of `di_v3_t`, field 1 of `di_v4_t`. -/
def efm32_di_part_addr (v : Nat) : Nat :=
  if v = 1 then EFM32_DI_V1 + 76
  else if v = 2 then EFM32_DI_V2 + 84
  else if v = 3 then EFM32_DI_V3 + 76
  else EFM32_DI_V4 + 4

/-- Address of the `MSIZE` word for each DI schema: field 18 of `di_v1_t`,
field 20 of `di_v2_t`, field 18 of `di_v3_t`, field 3 of `di_v4_t`. -/
def efm32_di_msize_addr (v : Nat) : Nat :=
  if v = 1 then EFM32_DI_V1 + 72
  else if v = 2 then EFM32_DI_V2 + 80
  else if v = 3 then EFM32_DI_V3 + 72
  else EFM32_DI_V4 + 12

/-- Model of `efm32_read_part_family`: schemas 1-3 take bits [23:16] of `PART`;
schema 4 adds the 6-bit FAMILYNUM and FAMILY fields (`uint8` addition). -/
def efm32_read_part_family (mem : Nat → Nat) (v : Nat) : Nat :=
  if v = 4 then
    ((((mem32 mem (efm32_di_part_addr v)) >>> 16) &&& 0x3F) +
      (((mem32 mem (efm32_di_part_addr v)) >>> 24) &&& 0x3F)) % 256
  else
    ((mem32 mem (efm32_di_part_addr v)) >>> 16) &&& 0xFF

/-- The constant `EFM32_UNKNOWN_FAMILY`. -/
def EFM32_UNKNOWN_FAMILY : Nat := 9999

/-- Model of `efm32_lookup_device_index`: linear scan of `efm32_devices` for the
part family. -/
def efm32_lookup_device_index (fam : Nat) : Nat :=
  match efm32_devices.findIdx? (fun d => d.family_id = fam) with
  | some i => i
  | none => EFM32_UNKNOWN_FAMILY

/-- The schema choice of `efm32_probe` from the DP's AP-IDCODE
(AN0062 section 2.2). -/
def efm32_di_version (ap_idcode : Nat) : Option Nat :=
  if ap_idcode = 0x2BA01477 then some 3
  else if ap_idcode = 0x0BC11477 then some 2
  else if ap_idcode = 0x6BA02477 then some 4
  else none

/-- Result of `efm32_probe`: whether the probe accepted the target, the DI
schema version it chose (none when the IDCODE was rejected), and the DI
words it read, in order. -/
structure Efm32ProbeResult where
  ok : Bool
  di : Option Nat
  reads : List Nat
deriving DecidableEq

/-- Model of `efm32_probe(t)` up to target construction: choose the DI schema from
the AP IDCODE (rejecting unknown IDCODEs before any DI read), read the
part family and reject unknown families, then read the part number and the
flash/RAM sizes.  The target/flash-region construction that follows has no
further DI interaction. -/
def efm32_probe (mem : Nat → Nat) (ap_idcode : Nat) : Efm32ProbeResult :=
  match efm32_di_version ap_idcode with
  | none => ⟨false, none, []⟩
  | some v =>
    if efm32_lookup_device_index (efm32_read_part_family mem v) = EFM32_UNKNOWN_FAMILY then
      ⟨false, some v, [efm32_di_part_addr v]⟩
    else
      match efm32_get_device (efm32_lookup_device_index (efm32_read_part_family mem v)) with
      | none => ⟨false, some v, [efm32_di_part_addr v]⟩
      | some _ =>
        ⟨true, some v, [efm32_di_part_addr v, efm32_di_part_addr v,
          efm32_di_msize_addr v, efm32_di_msize_addr v]⟩

/-! ### EFM32 Authentication Access Port (C9)

AAP accesses are AP register reads/writes; events record the register byte
offset: CMD = 0x00, CMDKEY = 0x04, STATUS = 0x08. -/

/-- The attach condition of `efm32_aap_probe`: the AP IDR masked with
`EFM32_APP_IDR_MASK` must equal `EFM32_AAP_IDR`; otherwise the probe
returns without creating a target. -/
def efm32_aap_probe (idr : Nat) : Bool :=
  idr &&& 0x0FFFFF0F == 0x06E60001

/-- Oracle for the AAP erase: `status j` is the value of the `j`-th
STATUS read of the command. -/
structure AapEnv where
  status : Nat → Nat

/-- The `do { status = read(STATUS) } while (status & ERASEBUSY)` loop of
`efm32_aap_cmd_device_erase`, starting at read index `j`: reads STATUS
until bit 0 is clear (the clear read included), returning the events and
the next read index. -/
def aapPoll (env : AapEnv) : Nat → Nat → Option (List TEv × Nat)
  | 0, _ => none
  | fuel + 1, j =>
    let st := env.status j % 2 ^ 32
    if st &&& 1 = 0 then some ([TEv.r32 0x08 st], j + 1)
    else
      (aapPoll env fuel (j + 1)).map fun r => (TEv.r32 0x08 st :: r.1, r.2)

/-- Model of `efm32_aap_cmd_device_erase(t)`: read STATUS; if ERASEBUSY (bit 0) is
set return false without further accesses; otherwise write
`CMDKEY <- 0xCFACC118` and `CMD <- 1`, poll STATUS until ERASEBUSY clears,
read STATUS once more (the trailing debug read at the end of the C
function), and return true. -/
def efm32_aap_cmd_device_erase (env : AapEnv) (fuel : Nat) : Option (List TEv × Bool) :=
  if env.status 0 % 2 ^ 32 &&& 1 ≠ 0 then some ([TEv.r32 0x08 (env.status 0 % 2 ^ 32)], false)
  else
    match aapPoll env fuel 1 with
    | none => none
    | some (evs, j) =>
      some (TEv.r32 0x08 (env.status 0 % 2 ^ 32) :: TEv.w32 0x04 0xCFACC118 ::
        TEv.w32 0x00 1 :: (evs ++ [TEv.r32 0x08 (env.status j % 2 ^ 32)]), true)

/-- The access sequence C9 claims for `erase_mass`, word for word: the
entry STATUS read; if ERASEBUSY is set, failure with no key or command
write; otherwise exactly `CMDKEY <- 0xCFACC118`, `CMD <- 1`, then STATUS
reads until bit 0 is clear, and success. -/
def c9ClaimErase (env : AapEnv) (fuel : Nat) : Option (List TEv × Bool) :=
  if env.status 0 % 2 ^ 32 &&& 1 ≠ 0 then some ([TEv.r32 0x08 (env.status 0 % 2 ^ 32)], false)
  else
    match aapPoll env fuel 1 with
    | none => none
    | some (evs, _) =>
      some (TEv.r32 0x08 (env.status 0 % 2 ^ 32) :: TEv.w32 0x04 0xCFACC118 ::
        TEv.w32 0x00 1 :: evs, true)

/-- The amended C9 sequence: as claimed, plus one further STATUS read
between the end of the poll and the successful return. -/
def c9AmendedErase (env : AapEnv) (fuel : Nat) : Option (List TEv × Bool) :=
  if env.status 0 % 2 ^ 32 &&& 1 ≠ 0 then some ([TEv.r32 0x08 (env.status 0 % 2 ^ 32)], false)
  else
    match aapPoll env fuel 1 with
    | none => none
    | some (evs, j) =>
      some (TEv.r32 0x08 (env.status 0 % 2 ^ 32) :: TEv.w32 0x04 0xCFACC118 ::
        TEv.w32 0x00 1 :: evs ++ [TEv.r32 0x08 (env.status j % 2 ^ 32)], true)

/-! ### Theorems -/

/-! ### Lemmas about the read loop -/

lemma memReadGo_extracts (drw : Nat → Nat) (align : Nat) :
    ∀ n src osrc k, (memReadGo drw align n src osrc k).2 =
      dataExtracts align (memReadGo drw align n src osrc k).1 := by
  intro n
  induction n with
  | zero => intro src osrc k; simp [memReadGo, dataExtracts]
  | succ n ih =>
    intro src osrc k
    simp only [memReadGo]
    split
    · simpa [dataExtracts, List.filterMap_cons] using ih _ _ _
    · simpa [dataExtracts, List.filterMap_cons] using ih _ _ _

lemma memReadGo_dataReads (drw : Nat → Nat) (align : Nat) :
    ∀ n src osrc k, countDataReads (memReadGo drw align n src osrc k).1 = n := by
  intro n
  induction n with
  | zero => intro src osrc k; simp [memReadGo, countDataReads]
  | succ n ih =>
    intro src osrc k
    simp only [memReadGo]
    split
    · simpa [countDataReads, List.countP_cons] using ih _ _ _
    · simpa [countDataReads, List.countP_cons] using ih _ _ _

lemma memReadGo_rdbuff (drw : Nat → Nat) (align : Nat) :
    ∀ n src osrc k, countRdbuff (memReadGo drw align n src osrc k).1 = 1 := by
  intro n
  induction n with
  | zero => intro src osrc k; simp [memReadGo, countRdbuff]
  | succ n ih =>
    intro src osrc k
    simp only [memReadGo]
    split
    · simpa [countRdbuff, List.countP_cons] using ih _ _ _
    · simpa [countRdbuff, List.countP_cons] using ih _ _ _

lemma memReadGo_length (drw : Nat → Nat) (align : Nat) :
    ∀ n src osrc k, (memReadGo drw align n src osrc k).2.length = n + 1 := by
  intro n
  induction n with
  | zero => intro src osrc k; simp [memReadGo]
  | succ n ih =>
    intro src osrc k
    simp only [memReadGo]
    split
    · simpa using ih _ _ _
    · simpa using ih _ _ _

lemma endsWithRdbuff_cons_of_ne_nil (x : MOp) (l : List MOp) (h : l ≠ []) :
    endsWithRdbuff (x :: l) = endsWithRdbuff l := by
  obtain ⟨y, ys, rfl⟩ := List.exists_cons_of_ne_nil h
  cases x <;> rfl

lemma memReadGo_ne_nil (drw : Nat → Nat) (align : Nat) :
    ∀ n src osrc k, (memReadGo drw align n src osrc k).1 ≠ [] := by
  intro n
  cases n with
  | zero => intro src osrc k; simp [memReadGo]
  | succ n =>
    intro src osrc k
    simp only [memReadGo]
    split <;> simp

lemma memReadGo_ends (drw : Nat → Nat) (align : Nat) :
    ∀ n src osrc k, endsWithRdbuff (memReadGo drw align n src osrc k).1 = true := by
  intro n
  induction n with
  | zero => intro src osrc k; simp [memReadGo, endsWithRdbuff]
  | succ n ih =>
    intro src osrc k
    simp only [memReadGo]
    split
    · rw [endsWithRdbuff_cons_of_ne_nil, endsWithRdbuff_cons_of_ne_nil,
        endsWithRdbuff_cons_of_ne_nil]
      · exact ih _ _ _
      · exact memReadGo_ne_nil drw align n _ _ _
      · simp
      · simp
    · rw [endsWithRdbuff_cons_of_ne_nil]
      · exact ih _ _ _
      · exact memReadGo_ne_nil drw align n _ _ _

lemma memReadGo_primes (drw : Nat → Nat) (align : Nat) :
    ∀ n src osrc k prev, primesAfterTar prev (memReadGo drw align n src osrc k).1 = true := by
  intro n
  induction n with
  | zero => intro src osrc k prev; simp [memReadGo, primesAfterTar]
  | succ n ih =>
    intro src osrc k prev
    simp only [memReadGo]
    split
    · simp [primesAfterTar, ih]
    · simp [primesAfterTar, ih]

lemma memReadGo_tarConsistent (drw : Nat → Nat) (align : Nat) :
    ∀ n src osrc k, (src ^^^ osrc) &&& 0xfffffc00 = 0 →
      tarConsistent (some osrc) (memReadGo drw align n src osrc k).1 = true := by
  intro n
  induction n with
  | zero => intro src osrc k _h; simp [memReadGo, tarConsistent]
  | succ n ih =>
    intro src osrc k h
    simp only [memReadGo]
    split
    · simp only [tarConsistent, Bool.and_eq_true, decide_eq_true_eq]
      exact ⟨h, by simp [Nat.xor_self], ih _ _ _ (by simp [Nat.xor_self])⟩
    · rename_i hc
      simp only [tarConsistent, Bool.and_eq_true, decide_eq_true_eq]
      refine ⟨h, ih _ _ _ ?_⟩
      simpa using hc

lemma memReadGo_tarPrimed (drw : Nat → Nat) (align : Nat) :
    ∀ n src osrc k, tarPrimed (memReadGo drw align n src osrc k).1 = true := by
  intro n
  induction n with
  | zero => intro src osrc k; simp [memReadGo, tarPrimed]
  | succ n ih =>
    intro src osrc k
    simp only [memReadGo]
    split
    · simp [tarPrimed, ih]
    · simp [tarPrimed, ih]

lemma memWriteGo_tarConsistent (srcData : Nat → Nat) (align : Nat) :
    ∀ n dest odest k, (dest ^^^ odest) &&& 0xfffffc00 = 0 →
      tarConsistent (some odest) (memWriteGo srcData align n dest odest k) = true := by
  intro n
  induction n with
  | zero => intro dest odest k _h; simp [memWriteGo, tarConsistent]
  | succ n ih =>
    intro dest odest k h
    simp only [memWriteGo]
    split
    · simp only [tarConsistent, Bool.and_eq_true, decide_eq_true_eq]
      exact ⟨h, ih _ _ _ (by simp [Nat.xor_self])⟩
    · rename_i hc
      simp only [tarConsistent, Bool.and_eq_true, decide_eq_true_eq]
      refine ⟨h, ih _ _ _ ?_⟩
      simpa using hc

lemma shiftRight_pos_of_align (src len : Nat) (h : 0 < len) :
    0 < len >>> min (ALIGNOF src) (ALIGNOF len) := by
  have h3 : len &&& 3 = len % 4 := Nat.and_pow_two_sub_one_eq_mod len 2
  have h1 : len &&& 1 = len % 2 := Nat.and_pow_two_sub_one_eq_mod len 1
  have hle : 2 ^ min (ALIGNOF src) (ALIGNOF len) ≤ len := by
    have hmin : min (ALIGNOF src) (ALIGNOF len) ≤ ALIGNOF len := min_le_right _ _
    have : 2 ^ min (ALIGNOF src) (ALIGNOF len) ≤ 2 ^ ALIGNOF len :=
      Nat.pow_le_pow_right (by norm_num) hmin
    refine this.trans ?_
    unfold ALIGNOF
    split
    · rename_i h4
      rw [h3] at h4
      omega
    · split
      · rename_i h2
        rw [h1] at h2
        omega
      · simpa using h
  rw [Nat.shiftRight_eq_div_pow]
  exact Nat.div_pos hle (Nat.pos_pow_of_pos _ (by norm_num))

/-- C1: for every MEM-AP read with `len > 0`, the engine computes
`align = min(align_of(src), align_of(len))`, sets count `= len >> align`,
programs CSW and TAR, issues one priming DRW read whose result is
discarded, performs `count - 1` DRW data reads each lane-extracted into
`dest`, and obtains the final transfer's data from RDBUFF instead of DRW
(every further discarded read comes right after a TAR rewrite). -/
theorem C1_mem_read_engine (drw : Nat → Nat) (src len : Nat) (h : 0 < len) :
    (adiv5_mem_read drw src len).1 =
      MOp.csw (min (ALIGNOF src) (ALIGNOF len)) :: MOp.tar src ::
      MOp.drwR src (drw 0) true ::
      (memReadGo drw (min (ALIGNOF src) (ALIGNOF len))
        (len >>> min (ALIGNOF src) (ALIGNOF len) - 1) src src 1).1 ∧
    countDataReads (adiv5_mem_read drw src len).1 =
      len >>> min (ALIGNOF src) (ALIGNOF len) - 1 ∧
    countRdbuff (adiv5_mem_read drw src len).1 = 1 ∧
    endsWithRdbuff (adiv5_mem_read drw src len).1 = true ∧
    primesAfterTar (MOp.csw (min (ALIGNOF src) (ALIGNOF len)))
      (adiv5_mem_read drw src len).1 = true ∧
    (adiv5_mem_read drw src len).2 =
      dataExtracts (min (ALIGNOF src) (ALIGNOF len)) (adiv5_mem_read drw src len).1 ∧
    (adiv5_mem_read drw src len).2.length = len >>> min (ALIGNOF src) (ALIGNOF len) := by
  have hlen : len ≠ 0 := Nat.pos_iff_ne_zero.mp h
  have hcount := shiftRight_pos_of_align src len h
  simp only [adiv5_mem_read, if_neg hlen]
  refine ⟨trivial, ?_, ?_, ?_, ?_, ?_, ?_⟩
  · have hgo := memReadGo_dataReads drw (min (ALIGNOF src) (ALIGNOF len))
      (len >>> min (ALIGNOF src) (ALIGNOF len) - 1) src src 1
    simp only [countDataReads, List.countP_cons] at hgo ⊢
    simpa using hgo
  · have hgo := memReadGo_rdbuff drw (min (ALIGNOF src) (ALIGNOF len))
      (len >>> min (ALIGNOF src) (ALIGNOF len) - 1) src src 1
    simp only [countRdbuff, List.countP_cons] at hgo ⊢
    simpa using hgo
  · rw [endsWithRdbuff_cons_of_ne_nil, endsWithRdbuff_cons_of_ne_nil,
      endsWithRdbuff_cons_of_ne_nil]
    · exact memReadGo_ends drw _ _ _ _ _
    · exact memReadGo_ne_nil drw _ _ _ _ _
    · simp
    · simp
  · simp [primesAfterTar, memReadGo_primes]
  · simp [dataExtracts, List.filterMap_cons, memReadGo_extracts]
  · rw [memReadGo_length]
    omega

/-- C1 witness: the S3-style transfer `mem_read(0x20000FFC, 16)` really has
three data DRW reads and four extracted output units. -/
theorem C1_mem_read_engine_witness :
    countDataReads (adiv5_mem_read (fun k => k) 0x20000FFC 16).1 = 3 ∧
    (adiv5_mem_read (fun k => k) 0x20000FFC 16).2.length = 4 := by
  have h := C1_mem_read_engine (fun k => k) 0x20000FFC 16 (by norm_num)
  refine ⟨?_, ?_⟩
  · have := h.2.1
    simpa using this
  · have := h.2.2.2.2.2.2
    simpa using this

/-- C2: in `adiv5_mem_read` and `adiv5_mem_write_sized`, every DRW transfer
happens at an address in the same 1 KiB (10-bit) block as the last value
written to TAR, and on the read path every TAR write is immediately
followed by a fresh priming DRW read. -/
theorem C2_tar_wrap (drw srcData : Nat → Nat) (src len dest lenW alignW : Nat) :
    tarConsistent none (adiv5_mem_read drw src len).1 = true ∧
    tarPrimed (adiv5_mem_read drw src len).1 = true ∧
    tarConsistent none (adiv5_mem_write_sized srcData dest lenW alignW) = true := by
  refine ⟨?_, ?_, ?_⟩
  · by_cases hlen : len = 0
    · simp [adiv5_mem_read, hlen, tarConsistent]
    · simp only [adiv5_mem_read, if_neg hlen]
      simp only [tarConsistent, Bool.and_eq_true, decide_eq_true_eq]
      exact ⟨by simp [Nat.xor_self], memReadGo_tarConsistent drw _ _ _ _ _ (by simp [Nat.xor_self])⟩
  · by_cases hlen : len = 0
    · simp [adiv5_mem_read, hlen, tarPrimed]
    · simp only [adiv5_mem_read, if_neg hlen]
      simp [tarPrimed, memReadGo_tarPrimed]
  · simp only [adiv5_mem_write_sized]
    simp only [tarConsistent]
    exact memWriteGo_tarConsistent srcData _ _ _ _ _ (by simp [Nat.xor_self])

/-- C10: `adiv5_mem_read` with `len = 0` issues no transport operation at
all and stores nothing, while `adiv5_mem_write_sized` with `len = 0` still
programs CSW and TAR (and writes no DRW data). -/
theorem C10_zero_length_frame (drw srcData : Nat → Nat) (src dest align : Nat) :
    adiv5_mem_read drw src 0 = ([], []) ∧
    adiv5_mem_write_sized srcData dest 0 align = [MOp.csw align, MOp.tar dest] := by
  constructor
  · simp [adiv5_mem_read]
  · simp [adiv5_mem_write_sized, Nat.zero_shiftRight, memWriteGo]

lemma absentCount_succ (env : Nat → ApEnv) (i : Nat) :
    absentCount env (i + 1) =
      absentCount env i + (if (env i).present = false then 1 else 0) := by
  simp [absentCount, List.range_succ, List.countP_append, List.countP_cons]

lemma apScanGo_stop_sound (env : Nat → ApEnv) (idcode : Nat) :
    ∀ rem i lastBase voidAps probed forced probes,
      lastBase = lastBaseBefore env i →
      voidAps = absentCount env i →
      voidAps ≤ 8 →
      (match (apScanGo env idcode rem i lastBase voidAps probed forced probes).stop with
       | ScanStop.absent0 => (env 0).present = false
       | ScanStop.dupBase j => (env j).present = true ∧ (env j).base = lastBaseBefore env j
       | ScanStop.voidLimit j => absentCount env j = 8
       | ScanStop.exhausted => True) := by
  intro rem
  induction rem with
  | zero => intro i lb va probed forced probes _ _ _; simp [apScanGo]
  | succ rem ih =>
    intro i lb va probed forced probes hlb hva hva8
    simp only [apScanGo]
    by_cases h8 : 8 ≤ va
    · simp only [if_pos h8]
      have : va = 8 := le_antisymm hva8 h8
      simp [← hva, this]
    · simp only [if_neg h8]
      by_cases habs : (env i).present = false
      · simp only [if_pos habs]
        by_cases hi : i = 0
        · subst hi; simp [habs]
        · simp only [if_neg hi]
          refine ih (i + 1) lb (va + 1) probed forced probes ?_ ?_ ?_
          · simp [lastBaseBefore, habs, hlb]
          · rw [absentCount_succ, if_pos habs, hva]
          · omega
      · simp only [if_neg habs]
        have hpres : (env i).present = true := by
          cases hp : (env i).present
          · exact absurd hp habs
          · rfl
        by_cases hdup : (env i).base = lb
        · simp only [if_pos hdup]
          simp [hpres, hdup, hlb]
        · simp only [if_neg hdup]
          have hlb' : (env i).base = lastBaseBefore env (i + 1) := by
            simp [lastBaseBefore, hpres]
          have hva' : va = absentCount env (i + 1) := by
            rw [absentCount_succ, if_neg habs]
            omega
          by_cases hskip : (env i).base &&& 1 = 0 ∨ (env i).base = 0xffffffff
          · rw [if_pos hskip]
            exact ih (i + 1) _ va probed forced probes hlb' hva' hva8
          · rw [if_neg hskip]
            by_cases hforce : (probed || (env i).probe) = false ∧ idcode &&& 0xfff = 0x477
            · rw [if_pos hforce]
              exact ih (i + 1) _ va true _ _ hlb' hva' hva8
            · rw [if_neg hforce]
              exact ih (i + 1) _ va _ forced _ hlb' hva' hva8

lemma apScanGo_probed_true (env : Nat → ApEnv) (idcode : Nat) :
    ∀ rem i lastBase voidAps forced probes,
      (apScanGo env idcode rem i lastBase voidAps true forced probes).forced =
        forced.reverse := by
  intro rem
  induction rem with
  | zero => intro i lb va forced probes; simp [apScanGo]
  | succ rem ih =>
    intro i lb va forced probes
    simp only [apScanGo]
    by_cases h8 : 8 ≤ va
    · simp [if_pos h8]
    · rw [if_neg h8]
      by_cases habs : (env i).present = false
      · rw [if_pos habs]
        by_cases hi : i = 0
        · simp [if_pos hi]
        · rw [if_neg hi]; exact ih _ _ _ _ _
      · rw [if_neg habs]
        by_cases hdup : (env i).base = lb
        · simp [if_pos hdup]
        · rw [if_neg hdup]
          by_cases hskip : (env i).base &&& 1 = 0 ∨ (env i).base = 0xffffffff
          · rw [if_pos hskip]; exact ih _ _ _ _ _
          · rw [if_neg hskip]
            rw [if_neg (by simp)]
            exact ih _ _ _ _ _

lemma apScanGo_probes_ge (env : Nat → ApEnv) (idcode : Nat) :
    ∀ rem i lastBase voidAps probed forced probes,
      ∀ p ∈ (apScanGo env idcode rem i lastBase voidAps probed forced probes).probes,
        p ∈ probes ∨ i ≤ p.1 := by
  intro rem
  induction rem with
  | zero => intro i lb va probed forced probes p hp; simp [apScanGo] at hp; exact Or.inl (by simpa using hp)
  | succ rem ih =>
    intro i lb va probed forced probes p hp
    simp only [apScanGo] at hp
    by_cases h8 : 8 ≤ va
    · rw [if_pos h8] at hp; exact Or.inl (by simpa using hp)
    · rw [if_neg h8] at hp
      by_cases habs : (env i).present = false
      · rw [if_pos habs] at hp
        by_cases hi : i = 0
        · rw [if_pos hi] at hp; exact Or.inl (by simpa using hp)
        · rw [if_neg hi] at hp
          rcases ih _ _ _ _ _ _ p hp with h | h
          · exact Or.inl h
          · exact Or.inr (by omega)
      · rw [if_neg habs] at hp
        by_cases hdup : (env i).base = lb
        · rw [if_pos hdup] at hp; exact Or.inl (by simpa using hp)
        · rw [if_neg hdup] at hp
          by_cases hskip : (env i).base &&& 1 = 0 ∨ (env i).base = 0xffffffff
          · rw [if_pos hskip] at hp
            rcases ih _ _ _ _ _ _ p hp with h | h
            · exact Or.inl h
            · exact Or.inr (by omega)
          · rw [if_neg hskip] at hp
            by_cases hforce : (probed || (env i).probe) = false ∧ idcode &&& 0xfff = 0x477
            · rw [if_pos hforce] at hp
              rcases ih _ _ _ _ _ _ p hp with h | h
              · rcases List.mem_cons.mp h with h' | h'
                · exact Or.inr (by simp [h'])
                · exact Or.inl h'
              · exact Or.inr (by omega)
            · rw [if_neg hforce] at hp
              rcases ih _ _ _ _ _ _ p hp with h | h
              · rcases List.mem_cons.mp h with h' | h'
                · exact Or.inr (by simp [h'])
                · exact Or.inl h'
              · exact Or.inr (by omega)

lemma apScanGo_forced_false (env : Nat → ApEnv) (idcode : Nat) :
    ∀ rem i lastBase voidAps forced probes,
      (∀ p ∈ probes, p.2 = false) →
      (∀ p ∈ probes, p.1 < i) →
      (apScanGo env idcode rem i lastBase voidAps false forced probes).forced =
          forced.reverse ∨
        ∃ j, i ≤ j ∧
          (apScanGo env idcode rem i lastBase voidAps false forced probes).forced =
            forced.reverse ++ [j] ∧
          idcode &&& 0xfff = 0x477 ∧ (env j).probe = false ∧
          (∀ p ∈ (apScanGo env idcode rem i lastBase voidAps false forced probes).probes,
            p.1 ≤ j → p.2 = false) := by
  intro rem
  induction rem with
  | zero => intro i lb va forced probes _ _; exact Or.inl (by simp [apScanGo])
  | succ rem ih =>
    intro i lb va forced probes hfalse hlt
    simp only [apScanGo]
    by_cases h8 : 8 ≤ va
    · rw [if_pos h8]; exact Or.inl rfl
    · rw [if_neg h8]
      by_cases habs : (env i).present = false
      · rw [if_pos habs]
        by_cases hi : i = 0
        · rw [if_pos hi]; exact Or.inl rfl
        · rw [if_neg hi]
          rcases ih (i + 1) lb (va + 1) forced probes hfalse
              (fun p hp => Nat.lt_succ_of_lt (hlt p hp)) with h | ⟨j, hj, h⟩
          · exact Or.inl h
          · exact Or.inr ⟨j, by omega, h⟩
      · rw [if_neg habs]
        by_cases hdup : (env i).base = lb
        · rw [if_pos hdup]; exact Or.inl rfl
        · rw [if_neg hdup]
          by_cases hskip : (env i).base &&& 1 = 0 ∨ (env i).base = 0xffffffff
          · rw [if_pos hskip]
            rcases ih (i + 1) _ va forced probes hfalse
                (fun p hp => Nat.lt_succ_of_lt (hlt p hp)) with h | ⟨j, hj, h⟩
            · exact Or.inl h
            · exact Or.inr ⟨j, by omega, h⟩
          · rw [if_neg hskip]
            by_cases hpr : (env i).probe = false
            · by_cases hid : idcode &&& 0xfff = 0x477
              · rw [if_pos ⟨by simp [hpr], hid⟩]
                refine Or.inr ⟨i, le_refl i, ?_, hid, hpr, ?_⟩
                · rw [apScanGo_probed_true]
                  simp
                · intro p hp hple
                  rcases apScanGo_probes_ge env idcode rem (i + 1) _ va true
                      (i :: forced) ((i, (env i).probe) :: probes) p hp with h | h
                  · rcases List.mem_cons.mp h with h' | h'
                    · rw [h']; exact hpr
                    · exact hfalse p h'
                  · omega
              · rw [if_neg fun hc => hid hc.2]
                rw [hpr]
                simp only [Bool.or_false]
                have hfalse' : ∀ p ∈ ((i, false) :: probes), p.2 = false := by
                  intro p hp
                  rcases List.mem_cons.mp hp with h' | h'
                  · rw [h']
                  · exact hfalse p h'
                have hlt' : ∀ p ∈ ((i, false) :: probes), p.1 < i + 1 := by
                  intro p hp
                  rcases List.mem_cons.mp hp with h' | h'
                  · rw [h']; omega
                  · exact Nat.lt_succ_of_lt (hlt p h')
                rcases ih (i + 1) _ va forced ((i, false) :: probes) hfalse' hlt'
                    with h | ⟨j, hj, h1, h2, h3, h4⟩
                · exact Or.inl h
                · exact Or.inr ⟨j, by omega, h1, h2, h3, h4⟩
            · have hpr' : (env i).probe = true := by
                cases hp : (env i).probe
                · exact absurd hp hpr
                · rfl
              rw [if_neg (by simp [hpr'])]
              rw [hpr']
              simp only [Bool.or_true]
              rw [apScanGo_probed_true]
              exact Or.inl rfl

/-- C5 counterexample: with DP IDCODE `0x477`, AP 1's ROM-table discovery
runs and returns no components, yet no forced `cortexm_probe(ap, true)` is
ever attempted, because `probed` is accumulated across APs and AP 0's
discovery already succeeded.  This falsifies the claim that the forced
probe is attempted whenever discovery on *that* AP found nothing and the
IDCODE condition holds. -/
theorem C5_forced_probe_counterexample :
    (adiv5_dp_init_scan envC5 0x477).forced = [] ∧
    (1, false) ∈ (adiv5_dp_init_scan envC5 0x477).probes ∧
    0x477 &&& 0xfff = 0x477 := by decide

/-- C5 (amended): in `adiv5_dp_init`, the forced `cortexm_probe(ap, true)`
is attempted at most once per enumeration pass, and only when the DP
IDCODE's low 12 bits equal `0x477`, the forced AP's own discovery returned
no components, and no discovery on it or any earlier scanned AP returned a
component. -/
theorem C5_forced_probe (env : Nat → ApEnv) (idcode : Nat) :
    (adiv5_dp_init_scan env idcode).forced.length ≤ 1 ∧
    ∀ j ∈ (adiv5_dp_init_scan env idcode).forced,
      idcode &&& 0xfff = 0x477 ∧ (env j).probe = false ∧
      ∀ p ∈ (adiv5_dp_init_scan env idcode).probes, p.1 ≤ j → p.2 = false := by
  rcases apScanGo_forced_false env idcode 256 0 0 0 [] [] (by simp) (by simp)
      with h | ⟨j, _, h1, h2, h3, h4⟩
  · unfold adiv5_dp_init_scan
    rw [h]
    simp
  · unfold adiv5_dp_init_scan
    rw [h1]
    simp only [List.reverse_nil, List.nil_append, List.length_cons, List.length_nil]
    refine ⟨by omega, ?_⟩
    intro j' hj'
    have : j' = j := by simpa using hj'
    subst this
    exact ⟨h2, h3, h4⟩

/-- C5 witness: with IDCODE `0x477` and a lone empty-ROM AP, the forced
probe list is `[0]` and the amended theorem's conditions hold there. -/
theorem C5_forced_probe_witness :
    (adiv5_dp_init_scan envC5w 0x477).forced = [0] ∧
    0x477 &&& 0xfff = 0x477 ∧ (envC5w 0).probe = false := by
  have h := C5_forced_probe envC5w 0x477
  have hm : (adiv5_dp_init_scan envC5w 0x477).forced = [0] := by decide
  have h0 : 0 ∈ (adiv5_dp_init_scan envC5w 0x477).forced := by rw [hm]; simp
  exact ⟨hm, (h.2 0 h0).1, (h.2 0 h0).2.1⟩

/-- C6 counterexample: enumeration stops when about to scan apsel 16 (the
`void_aps < 8` loop condition fails), although apsel 0 is present, no two
consecutive apsels are absent (so no eight consecutive absent APs exist),
and no two present APs share a BASE.  The absent-AP counter is cumulative,
not consecutive, falsifying the claim's "otherwise the scan continues". -/
theorem C6_enumeration_stop_counterexample :
    (adiv5_dp_init_scan envC6 0).stop = ScanStop.voidLimit 16 ∧
    (envC6 0).present = true ∧
    (∀ i < 17, (envC6 i).present = false → (envC6 (i + 1)).present = true) ∧
    (∀ i < 17, ∀ j < i, (envC6 i).present = true → (envC6 j).present = true →
      (envC6 i).base ≠ (envC6 j).base) := by decide

/-- C6 (amended): AP enumeration ends either by scanning all 256 apsels,
or in exactly one of these early-stop cases: apsel 0 absent (immediate
return); a newly created AP whose BASE equals the BASE of the most recently
created AP (0 before any AP, so a first AP with BASE 0 also stops); or the
cumulative count of absent APs over the whole scan reaching eight. -/
theorem C6_enumeration_stop (env : Nat → ApEnv) (idcode : Nat) :
    match (adiv5_dp_init_scan env idcode).stop with
    | ScanStop.absent0 => (env 0).present = false
    | ScanStop.dupBase j => (env j).present = true ∧ (env j).base = lastBaseBefore env j
    | ScanStop.voidLimit j => absentCount env j = 8
    | ScanStop.exhausted => True := by
  exact apScanGo_stop_sound env idcode 256 0 0 0 false [] [] rfl rfl (by norm_num)

/-- C3: whenever the assembled CIDR with its class nibble masked off
differs from the preamble `0xB105000D`, `adiv5_component_probe` returns
false for that component, reads no ROM-table entry and dispatches no child
probe (the event list is empty). -/
theorem C3_cidr_preamble_reject (mem : Nat → Nat) (addr fuel : Nat)
    (h : adiv5_ap_read_id mem ((addr - addr % 4 + 0xFF0) % 2 ^ 32) &&& 0xFFFF0FFF
        ≠ 0xB105000D) :
    adiv5_component_probe mem (fuel + 1) addr = some (false, []) := by
  rw [adiv5_component_probe]
  rw [if_pos h]

/-- C3 witness: on the S1 mock the preamble check fails and the probe
returns false with no events. -/
theorem C3_cidr_preamble_reject_witness :
    adiv5_ap_read_id memS1 ((0xE00FF000 - 0xE00FF000 % 4 + 0xFF0) % 2 ^ 32) &&& 0xFFFF0FFF
        ≠ 0xB105000D ∧
    adiv5_component_probe memS1 1 0xE00FF000 = some (false, []) := by
  refine ⟨by decide, C3_cidr_preamble_reject memS1 0xE00FF000 0 (by decide)⟩

lemma memC4_probe_none : ∀ fuel, adiv5_component_probe memC4 fuel 0 = none := by
  intro fuel
  induction fuel with
  | zero => rw [adiv5_component_probe]
  | succ fuel ih =>
    rw [adiv5_component_probe]
    rw [if_neg (by decide), if_pos (by decide)]
    rw [romScan]
    rw [if_neg (by decide), if_neg (by decide)]
    have h1 : ((0 : Nat) - 0 % 4 +
        (mem32 memC4 ((0 - 0 % 4 + 0 * 4) % 2 ^ 32) &&& 4294963200)) % 2 ^ 32 = 0 := by
      decide
    rw [h1, ih]

/-- C4 counterexample: on a ROM table whose present entry 0 has offset 0
(pointing back at the table itself), the recursive walk never terminates —
no recursion-depth bound makes `adiv5_component_probe` return.  The code
has no visited-set, so cycles through ROM-table entries are not broken. -/
theorem C4_rom_walk_counterexample : ¬ ProbeTerminates memC4 0 := by
  rintro ⟨fuel, h⟩
  rw [memC4_probe_none fuel] at h
  simp at h

lemma probe_mono_and_romScan_mono (mem : Nat → Nat) : ∀ fuel,
    (∀ fuel' addr r, fuel ≤ fuel' → adiv5_component_probe mem fuel addr = some r →
      adiv5_component_probe mem fuel' addr = some r) ∧
    (∀ fuel' addr rem i r, fuel ≤ fuel' → romScan mem fuel addr rem i = some r →
      romScan mem fuel' addr rem i = some r) := by
  intro fuel
  induction fuel with
  | zero =>
    constructor
    · intro fuel' addr r _ h
      rw [adiv5_component_probe] at h
      exact absurd h (by simp)
    · intro fuel' addr rem i r _ h
      revert h
      induction rem generalizing i r with
      | zero =>
        intro h
        rw [romScan] at h
        rw [romScan]
        exact h
      | succ rem ihrem =>
        intro h
        rw [romScan] at h
        rw [romScan]
        split at h
        · rename_i hzero
          rw [if_pos hzero]
          exact h
        · rename_i hzero
          rw [if_neg hzero]
          split at h
          · rename_i hskip
            rw [if_pos hskip]
            rcases Option.map_eq_some'.mp h with ⟨r', hr', hmap⟩
            rw [ihrem _ _ hr']
            simpa using hmap
          · rename_i hskip
            rw [if_neg hskip]
            split at h
            · exact absurd h (by simp)
            · rename_i c hc
              rw [adiv5_component_probe] at hc
              exact absurd hc (by simp)
  | succ fuel ih =>
    have hP : ∀ fuel' addr r, fuel + 1 ≤ fuel' →
        adiv5_component_probe mem (fuel + 1) addr = some r →
        adiv5_component_probe mem fuel' addr = some r := by
      intro fuel' addr r hle h
      obtain ⟨fuel2, rfl⟩ : ∃ k, fuel' = k + 1 := ⟨fuel' - 1, by omega⟩
      have hle2 : fuel ≤ fuel2 := by omega
      rw [adiv5_component_probe] at h
      rw [adiv5_component_probe]
      split at h
      · rename_i hpre
        rw [if_pos hpre]
        exact h
      · rename_i hpre
        rw [if_neg hpre]
        split at h
        · rename_i hclass
          rw [if_pos hclass]
          exact ih.2 fuel2 _ _ _ _ hle2 h
        · rename_i hclass
          rw [if_neg hclass]
          exact h
    refine ⟨hP, ?_⟩
    intro fuel' addr rem i r hle h
    revert h
    induction rem generalizing i r with
    | zero =>
      intro h
      rw [romScan] at h
      rw [romScan]
      exact h
    | succ rem ihrem =>
      intro h
      rw [romScan] at h
      rw [romScan]
      split at h
      · rename_i hzero
        rw [if_pos hzero]
        exact h
      · rename_i hzero
        rw [if_neg hzero]
        split at h
        · rename_i hskip
          rw [if_pos hskip]
          rcases Option.map_eq_some'.mp h with ⟨r', hr', hmap⟩
          rw [ihrem _ _ hr']
          simpa using hmap
        · rename_i hskip
          rw [if_neg hskip]
          split at h
          · exact absurd h (by simp)
          · rename_i c hc
            rw [hP fuel' _ c hle hc]
            rcases Option.map_eq_some'.mp h with ⟨r', hr', hmap⟩
            rw [ihrem _ _ hr']
            simpa using hmap

lemma romScan_isSome (mem : Nat → Nat) (fuel addr : Nat) : ∀ rem i,
    (∀ a ∈ romChildrenAux mem addr rem i, (adiv5_component_probe mem fuel a).isSome) →
    (romScan mem fuel addr rem i).isSome := by
  intro rem
  induction rem with
  | zero =>
    intro i _
    rw [romScan]
    rfl
  | succ rem ih =>
    intro i hch
    rw [romScan]
    rw [romChildrenAux] at hch
    split
    · rfl
    · rename_i hzero
      rw [if_neg hzero] at hch
      split
      · rename_i hskip
        rw [if_pos hskip] at hch
        simpa [Option.isSome_map] using ih (i + 1) hch
      · rename_i hskip
        rw [if_neg hskip] at hch
        have hhead := hch _ (List.mem_cons_self _ _)
        obtain ⟨c, hc⟩ := Option.isSome_iff_exists.mp hhead
        rw [hc]
        have htail : ∀ a ∈ romChildrenAux mem addr rem (i + 1),
            (adiv5_component_probe mem fuel a).isSome :=
          fun a ha => hch a (List.mem_cons_of_mem _ ha)
        simpa [Option.isSome_map] using ih (i + 1) htail

lemma probe_leaf_isSome (mem : Nat → Nat) (addr : Nat)
    (h : isRomTable mem addr = false) :
    (adiv5_component_probe mem 1 addr).isSome := by
  show (adiv5_component_probe mem (0 + 1) addr).isSome
  rw [adiv5_component_probe]
  by_cases hpre : adiv5_ap_read_id mem ((addr - addr % 4 + 0xFF0) % 2 ^ 32) &&& 0xFFFF0FFF
      ≠ 0xB105000D
  · rw [if_pos hpre]
    rfl
  · rw [if_neg hpre]
    have hpre' : adiv5_ap_read_id mem ((addr - addr % 4 + 0xFF0) % 2 ^ 32) &&& 0xFFFF0FFF
        = 0xB105000D := not_not.mp hpre
    have hclass : ¬((adiv5_ap_read_id mem ((addr - addr % 4 + 0xFF0) % 2 ^ 32) &&&
        0x0000F000) >>> 12 = cidc_romtab) := by
      intro hc
      have htrue : isRomTable mem addr = true := by
        rw [isRomTable]
        rw [hpre', hc]
        decide
      rw [h] at htrue
      exact Bool.false_ne_true htrue
    rw [if_neg hclass]
    split
    · rfl
    · split <;> rfl

lemma exists_uniform_fuel (mem : Nat → Nat) (l : List Nat)
    (h : ∀ a ∈ l, ProbeTerminates mem a) :
    ∃ fuel, ∀ a ∈ l, (adiv5_component_probe mem fuel a).isSome := by
  induction l with
  | nil => exact ⟨0, by simp⟩
  | cons a l ih =>
    obtain ⟨f1, h1⟩ := h a (List.mem_cons_self _ _)
    obtain ⟨f2, h2⟩ := ih fun a' ha' => h a' (List.mem_cons_of_mem _ ha')
    refine ⟨max f1 f2, ?_⟩
    intro a' ha'
    rcases List.mem_cons.mp ha' with rfl | ha'
    · obtain ⟨r, hr⟩ := Option.isSome_iff_exists.mp h1
      have := (probe_mono_and_romScan_mono mem f1).1 (max f1 f2) a' r (le_max_left _ _) hr
      simp [this]
    · obtain ⟨r, hr⟩ := Option.isSome_iff_exists.mp (h2 a' ha')
      have := (probe_mono_and_romScan_mono mem f2).1 (max f1 f2) a' r (le_max_right _ _) hr
      simp [this]

/-- C4 (amended): the recursive ROM-table walk terminates whenever the
present-entry structure is well-founded (no chain of present ROM-table
entries revisits a ROM table forever); each table scan is cut off by the
first zero entry or the 960-entry cap, but entry cycles make the recursion
diverge (see the counterexample). -/
theorem C4_rom_walk_terminates (mem : Nat → Nat) (addr : Nat)
    (h : ComponentWf mem addr) : ProbeTerminates mem addr := by
  induction h with
  | leaf a hleaf => exact ⟨1, probe_leaf_isSome mem a hleaf⟩
  | table a htab hch ih =>
    obtain ⟨F, hF⟩ := exists_uniform_fuel mem (romChildren mem a) ih
    refine ⟨F + 1, ?_⟩
    rw [adiv5_component_probe]
    rw [isRomTable] at htab
    simp only [Bool.and_eq_true, beq_iff_eq] at htab
    rw [if_neg (by rw [ne_eq, htab.1]; simp), if_pos htab.2]
    exact romScan_isSome mem F (a - a % 4) 960 0 hF

/-- C4 witness: the all-zero component is trivially well-founded and the
walk terminates on it. -/
theorem C4_rom_walk_terminates_witness :
    ComponentWf memLeaf 0 ∧ ProbeTerminates memLeaf 0 :=
  ⟨ComponentWf.leaf 0 (by decide),
    C4_rom_walk_terminates memLeaf 0 (ComponentWf.leaf 0 (by decide))⟩

lemma mscPollBusy_eq_spec (env : MscEnv) (msc page : Nat) :
    ∀ fuel j, mscPollBusy env msc page fuel j = c7SpecPoll env msc page fuel j := by
  intro fuel
  induction fuel with
  | zero => intro j; rfl
  | succ fuel ih =>
    intro j
    rw [mscPollBusy, c7SpecPoll, ih]

lemma efm32ErasePages_eq_spec (env : MscEnv) (msc blocksize pollFuel : Nat) :
    ∀ pageFuel page addr len,
      efm32ErasePages env msc blocksize pollFuel pageFuel page addr len =
        c7SpecPages env msc blocksize pollFuel pageFuel page addr len := by
  intro pageFuel
  induction pageFuel with
  | zero => intro page addr len; rfl
  | succ pageFuel ih =>
    intro page addr len
    rw [efm32ErasePages, c7SpecPages, mscPollBusy_eq_spec]
    split
    · rfl
    · split
      · rfl
      · rename_i pevs aborted heq
        cases aborted
        · rw [ih]
        · rfl

/-- C7: on a valid EFM32 target, `efm32_flash_erase` emits exactly the
claimed MSC register sequence — `LOCK <- 0x1B71`, `WRITECTRL <- 1`, then
per page `ADDRB <- addr`, `WRITECMD <- 1` (LADDRIM), `WRITECMD <- 2`
(ERASEPAGE) and a `STATUS.BUSY` poll with `check_error` abort, the address
advancing by `blocksize` until `len` is exhausted — and returns 0 on
success, -1 when the error check aborts the poll. -/
theorem C7_flash_erase_sequence (env : MscEnv)
    (deviceIndex pollFuel pageFuel blocksize addr len : Nat)
    (hdev : deviceIndex < efm32_devices.length) (hlen : 0 < len) :
    efm32_flash_erase env deviceIndex pollFuel pageFuel blocksize addr len =
      c7SpecErase env (efm32_devices.get ⟨deviceIndex, hdev⟩).msc_addr
        pollFuel pageFuel blocksize addr len := by
  rw [efm32_flash_erase, efm32_get_device, List.getElem?_eq_getElem hdev]
  rw [c7SpecErase, ← efm32ErasePages_eq_spec]
  rfl

/-- C7 witness: the S4 scenario — MSC base `0x400C0000` (device index 1,
Giant Gecko), `addr = 0x8000`, `len = 2048`, `blocksize = 2048`, STATUS
immediately clear — runs the claimed sequence and returns 0. -/
theorem C7_flash_erase_sequence_witness :
    efm32_flash_erase ⟨fun _ _ => 0, fun _ _ => false⟩ 1 4 4 2048 0x8000 2048 =
      c7SpecErase ⟨fun _ _ => 0, fun _ _ => false⟩ 0x400c0000 4 4 2048 0x8000 2048 ∧
    efm32_flash_erase ⟨fun _ _ => 0, fun _ _ => false⟩ 1 4 4 2048 0x8000 2048 =
      some ([TEv.w32 0x400c003c 0x1b71, TEv.w32 0x400c0008 1,
        TEv.w32 0x400c0010 0x8000, TEv.w32 0x400c000c 1, TEv.w32 0x400c000c 2,
        TEv.r32 0x400c001c 0], 0) := by
  constructor
  · exact C7_flash_erase_sequence ⟨fun _ _ => 0, fun _ _ => false⟩ 1 4 4 2048 0x8000 2048
      (by norm_num [efm32_devices]) (by norm_num)
  · decide

/-- C8: the DI schema is chosen solely from the AP-IDCODE — `0x2BA01477`
selects version 3, `0x0BC11477` version 2, `0x6BA02477` version 4 — and
any other IDCODE makes `efm32_probe` return false before any
device-information read. -/
theorem C8_di_schema_selection (mem : Nat → Nat) (ap_idcode : Nat) :
    (ap_idcode = 0x2BA01477 → (efm32_probe mem ap_idcode).di = some 3) ∧
    (ap_idcode = 0x0BC11477 → (efm32_probe mem ap_idcode).di = some 2) ∧
    (ap_idcode = 0x6BA02477 → (efm32_probe mem ap_idcode).di = some 4) ∧
    (ap_idcode ≠ 0x2BA01477 → ap_idcode ≠ 0x0BC11477 → ap_idcode ≠ 0x6BA02477 →
      efm32_probe mem ap_idcode = ⟨false, none, []⟩) := by
  refine ⟨?_, ?_, ?_, ?_⟩
  · intro h
    subst h
    rw [efm32_probe, efm32_di_version]
    rw [if_pos rfl]
    split
    · rename_i heq
      exact absurd heq (by simp)
    · rename_i v heq
      injection heq with hv
      subst hv
      split
      · rfl
      · split <;> rfl
  · intro h
    subst h
    rw [efm32_probe, efm32_di_version]
    rw [if_neg (by norm_num), if_pos rfl]
    split
    · rename_i heq
      exact absurd heq (by simp)
    · rename_i v heq
      injection heq with hv
      subst hv
      split
      · rfl
      · split <;> rfl
  · intro h
    subst h
    rw [efm32_probe, efm32_di_version]
    rw [if_neg (by norm_num), if_neg (by norm_num), if_pos rfl]
    split
    · rename_i heq
      exact absurd heq (by simp)
    · rename_i v heq
      injection heq with hv
      subst hv
      split
      · rfl
      · split <;> rfl
  · intro h1 h2 h3
    rw [efm32_probe, efm32_di_version]
    rw [if_neg h1, if_neg h2, if_neg h3]

/-- C8 witness: the three known IDCODEs select schemas 3, 2, 4, and IDCODE
0 is rejected with no DI read. -/
theorem C8_di_schema_selection_witness :
    (efm32_probe (fun _ => 0) 0x2BA01477).di = some 3 ∧
    (efm32_probe (fun _ => 0) 0x0BC11477).di = some 2 ∧
    (efm32_probe (fun _ => 0) 0x6BA02477).di = some 4 ∧
    efm32_probe (fun _ => 0) 0 = ⟨false, none, []⟩ :=
  ⟨(C8_di_schema_selection (fun _ => 0) 0x2BA01477).1 rfl,
    (C8_di_schema_selection (fun _ => 0) 0x0BC11477).2.1 rfl,
    (C8_di_schema_selection (fun _ => 0) 0x6BA02477).2.2.1 rfl,
    (C8_di_schema_selection (fun _ => 0) 0).2.2.2 (by norm_num) (by norm_num) (by norm_num)⟩

/-- C9 counterexample: with STATUS always reading 0, the command issues
one more STATUS read after the poll completes (the C function re-reads
STATUS before returning), so the emitted sequence is not exactly the one
the claim lists. -/
theorem C9_aap_erase_counterexample :
    efm32_aap_cmd_device_erase ⟨fun _ => 0⟩ 1 =
      some ([TEv.r32 0x08 0, TEv.w32 0x04 0xCFACC118, TEv.w32 0x00 1,
        TEv.r32 0x08 0, TEv.r32 0x08 0], true) ∧
    c9ClaimErase ⟨fun _ => 0⟩ 1 =
      some ([TEv.r32 0x08 0, TEv.w32 0x04 0xCFACC118, TEv.w32 0x00 1,
        TEv.r32 0x08 0], true) ∧
    efm32_aap_cmd_device_erase ⟨fun _ => 0⟩ 1 ≠ c9ClaimErase ⟨fun _ => 0⟩ 1 := by
  decide

/-- C9 (amended): the AAP driver attaches exactly to IDR values matching
`0x06E60001` under mask `0x0FFFFF0F`, and `erase_mass` performs the entry
STATUS read, fails without key or command writes when ERASEBUSY is set,
and otherwise writes `CMDKEY <- 0xCFACC118` and `CMD <- 1`, polls STATUS
until bit 0 clears, issues one final STATUS read, and returns success. -/
theorem C9_aap_erase (env : AapEnv) (fuel idr : Nat) :
    (efm32_aap_probe idr = true ↔ idr &&& 0x0FFFFF0F = 0x06E60001) ∧
    efm32_aap_cmd_device_erase env fuel = c9AmendedErase env fuel := by
  constructor
  · simp [efm32_aap_probe]
  · rw [efm32_aap_cmd_device_erase, c9AmendedErase]
    rfl
